import Mathlib

/-!
Shallow embedding of `fetch_threat_intel.py` (threat-intel summary formatter).

A Python dict of string keys and string values is modelled as an association
list; `dict.get(k, d)` is a total lookup with default, while `dict[k]`
(raw subscription, which raises `KeyError` on a missing key) is modelled in
the `Except` monad.  The wall clock (`datetime.now().strftime("%Y-%m-%d")`)
is modelled as an explicit `now` parameter holding the current local date
already formatted as YYYY-MM-DD.  Python string slicing `s[:80]` operates on
code points, matching `List Char`.
-/

/-- A Python dict with string keys and string values, as an association list
(first binding wins on lookup, as in a dict where keys are unique). -/
abbrev Record := List (String × String)

/-- `d.get(k, default)`: total dictionary access with a default. -/
def dictGet (r : Record) (k d : String) : String :=
  (r.lookup k).getD d

/-- Python truthiness of `d.get(k)` (default `None`): the key is present and
its value is a non-empty string. -/
def truthyGet (r : Record) (k : String) : Bool :=
  match r.lookup k with
  | some v => v != ""
  | none => false

/-- `d[k]`: raw subscription; raises `KeyError` when the key is absent. -/
def getItem (r : Record) (k : String) : Except String String :=
  match r.lookup k with
  | some v => Except.ok v
  | none => Except.error ("KeyError: " ++ k)

/-- Python `s[:n]`: the first `n` code points of `s`. -/
def pySlice (s : String) (n : Nat) : String :=
  String.mk (s.data.take n)

/-- Concatenation of a list of strings, in order. -/
def concatList : List String → String
  | [] => ""
  | s :: ss => s ++ concatList ss

/-- The date actually used in the header: `if not date_str:` replaces a
`None` or empty date by the current date `now`. -/
def dateOf (now : String) : Option String → String
  | none => now
  | some s => if s = "" then now else s

/-- The lines appended for one threat inside the `for` loop of
`format_threat_summary` (loop counter `i` starts at 1).  The raw
subscription `threat['iocs']` is guarded by `if threat.get('iocs'):`. -/
def formatThreatBlock (i : Nat) (t : Record) : Except String String := do
  let a := "\n" ++ toString i ++ ". **" ++ dictGet t "name" "Unknown" ++ "** - " ++ dictGet t "severity" "N/A" ++ "\n"
  let b := "   📌 Target: " ++ dictGet t "target" "N/A" ++ "\n"
  let c := "   🎯 Vector: " ++ dictGet t "vector" "N/A" ++ "\n"
  let d ← if truthyGet t "iocs" then do
      let v ← getItem t "iocs"
      pure ("   ⚡ IOCs: " ++ v ++ "\n")
    else pure ""
  let e := "   🔗 Source: " ++ dictGet t "url" "N/A" ++ "\n"
  pure (a ++ b ++ c ++ d ++ e)

/-- The whole `for i, threat in enumerate(threats[:5], 1):` loop (applied to
the already-truncated list). -/
def renderThreats : Nat → List Record → Except String String
  | _, [] => Except.ok ""
  | i, t :: ts => do
    let blk ← formatThreatBlock i t
    let rest ← renderThreats (i + 1) ts
    pure (blk ++ rest)

/-- One line of the CVE section:
`f"- **{id}**: {desc[:80]}... (CVSS: {cvss})\n"` with defaults `N/A`. -/
def formatCveLine (cve : Record) : String :=
  "- **" ++ dictGet cve "id" "N/A" ++ "**: " ++ pySlice (dictGet cve "desc" "N/A") 80 ++ "... (CVSS: " ++ dictGet cve "cvss" "N/A" ++ ")\n"

/-- The `for cve in cves[:5]:` loop body concatenated. -/
def renderCves (cves : List Record) : String :=
  concatList ((cves.take 5).map formatCveLine)

/-- `format_threat_summary(threats, cves, date_str=None)`, with the wall
clock passed in as `now` (the current local date as YYYY-MM-DD). -/
def format_threat_summary (now : String) (threats cves : List Record) (date_str : Option String) : Except String String := do
  let date := dateOf now date_str
  let body ← renderThreats 1 (threats.take 5)
  let cvePart := if cves.isEmpty then "" else "\n🆕 **NEW CVEs**\n" ++ renderCves cves
  pure ("🔴 **THREAT INTEL SUMMARY - " ++ date ++ "**\n\n" ++ "🔥 **HOT THREATS**\n" ++ body ++ cvePart ++ "\n💡 *Stay safe, update your systems!* 🛡️")

/-- The conditional IOCs line, as a pure value. -/
def iocsPart (t : Record) : String :=
  match t.lookup "iocs" with
  | some v => if v = "" then "" else "   ⚡ IOCs: " ++ v ++ "\n"
  | none => ""

/-- Pure value of `formatThreatBlock` (which never actually fails). -/
def threatBlockStr (i : Nat) (t : Record) : String :=
  let a := "\n" ++ toString i ++ ". **" ++ dictGet t "name" "Unknown" ++ "** - " ++ dictGet t "severity" "N/A" ++ "\n"
  let b := "   📌 Target: " ++ dictGet t "target" "N/A" ++ "\n"
  let c := "   🎯 Vector: " ++ dictGet t "vector" "N/A" ++ "\n"
  let d := iocsPart t
  let e := "   🔗 Source: " ++ dictGet t "url" "N/A" ++ "\n"
  a ++ b ++ c ++ d ++ e

/-- Pure value of `renderThreats`. -/
def renderThreatsStr : Nat → List Record → String
  | _, [] => ""
  | i, t :: ts => threatBlockStr i t ++ renderThreatsStr (i + 1) ts

/-- Pure value of `format_threat_summary`. -/
def summaryStr (now : String) (threats cves : List Record) (date_str : Option String) : String :=
  let date := dateOf now date_str
  let body := renderThreatsStr 1 (threats.take 5)
  let cvePart := if cves.isEmpty then "" else "\n🆕 **NEW CVEs**\n" ++ renderCves cves
  "🔴 **THREAT INTEL SUMMARY - " ++ date ++ "**\n\n" ++ "🔥 **HOT THREATS**\n" ++ body ++ cvePart ++ "\n💡 *Stay safe, update your systems!* 🛡️"

/-- `sample_threats` from `main`. -/
def sample_threats : List Record :=
  [[("name", "Example Malware"),
    ("severity", "High"),
    ("target", "Financial Sector"),
    ("vector", "Phishing"),
    ("iocs", "example.com, 192.168.1.1"),
    ("url", "https://example.com/threat")]]

/-- `sample_cves` from `main`. -/
def sample_cves : List Record :=
  [[("id", "CVE-2025-1234"),
    ("desc", "Remote code execution vulnerability in example software"),
    ("cvss", "9.8")]]

/-- The two usage lines printed by `main` when `--sample` is not given
(each `print` appends a newline). -/
def usageText : String :=
  "Usage: python fetch_threat_intel.py --sample\nThis is a template script. The agent uses web_search/web_fetch directly.\n"

/-- `main()`: given the wall-clock date `now` and `sys.argv` (program name
included), returns the text written to standard output and the exit status.
`sys.argv[1]` is only reached when `len(sys.argv) > 1` (short-circuit
`and`), and the process exits 0 in both branches. -/
def main_run (now : String) (argv : List String) : Except String (String × Nat) := do
  if argv.length > 1 then do
    let a1 ← (match argv.get? 1 with
      | some a => Except.ok a
      | none => Except.error "IndexError: list index out of range")
    if a1 = "--sample" then do
      let s ← format_threat_summary now sample_threats sample_cves none
      pure (s ++ "\n", 0)
    else
      pure (usageText, 0)
  else
    pure (usageText, 0)

/-- `needle` occurs somewhere inside `hay` (contiguously, on code points). -/
def containsStr (needle hay : String) : Prop :=
  needle.data <:+: hay.data

theorem formatThreatBlock_eq (i : Nat) (t : Record) :
    formatThreatBlock i t = Except.ok (threatBlockStr i t) := by
  unfold formatThreatBlock threatBlockStr iocsPart truthyGet getItem
  cases h : t.lookup "iocs" with
  | none => simp only [h]; rfl
  | some v =>
    by_cases hv : v = ""
    · simp only [h, hv]; rfl
    · have hb : (v != "") = true := bne_iff_ne.mpr hv
      simp only [h, if_pos hb, if_neg hv]
      rfl

theorem renderThreats_eq (i : Nat) (ts : List Record) :
    renderThreats i ts = Except.ok (renderThreatsStr i ts) := by
  induction ts generalizing i with
  | nil => rfl
  | cons t ts ih =>
    simp only [renderThreats, renderThreatsStr, formatThreatBlock_eq, ih]
    rfl

theorem format_threat_summary_eq (now : String) (ts cs : List Record) (ds : Option String) :
    format_threat_summary now ts cs ds = Except.ok (summaryStr now ts cs ds) := by
  unfold format_threat_summary summaryStr
  rw [renderThreats_eq]
  rfl

theorem digitChar_ne_spark (m : Nat) : Nat.digitChar m ≠ '⚡' := by
  by_cases h : m < 16
  · interval_cases m <;> decide
  · have h0 : ¬ m = 0 := by omega
    have h1 : ¬ m = 1 := by omega
    have h2 : ¬ m = 2 := by omega
    have h3 : ¬ m = 3 := by omega
    have h4 : ¬ m = 4 := by omega
    have h5 : ¬ m = 5 := by omega
    have h6 : ¬ m = 6 := by omega
    have h7 : ¬ m = 7 := by omega
    have h8 : ¬ m = 8 := by omega
    have h9 : ¬ m = 9 := by omega
    have ha : ¬ m = 10 := by omega
    have hb : ¬ m = 11 := by omega
    have hc : ¬ m = 12 := by omega
    have hd : ¬ m = 13 := by omega
    have he : ¬ m = 14 := by omega
    have hf : ¬ m = 15 := by omega
    simp only [Nat.digitChar, if_neg h0, if_neg h1, if_neg h2, if_neg h3, if_neg h4,
      if_neg h5, if_neg h6, if_neg h7, if_neg h8, if_neg h9, if_neg ha, if_neg hb,
      if_neg hc, if_neg hd, if_neg he, if_neg hf]
    decide

theorem toDigitsCore_count_spark (b : Nat) :
    ∀ (f n : Nat) (acc : List Char),
      (Nat.toDigitsCore b f n acc).count '⚡' = acc.count '⚡' := by
  intro f
  induction f with
  | zero => intro n acc; rfl
  | succ f ih =>
    intro n acc
    by_cases h : n / b = 0
    · simp [Nat.toDigitsCore, h, List.count_cons, digitChar_ne_spark]
    · simp [Nat.toDigitsCore, h, ih, List.count_cons, digitChar_ne_spark]

theorem toString_count_spark (n : Nat) : (toString n).data.count '⚡' = 0 := by
  have h : (toString n).data = Nat.toDigits 10 n := rfl
  rw [h]
  unfold Nat.toDigits
  rw [toDigitsCore_count_spark]
  rfl

theorem mem_of_lookup_eq_some {t : Record} {k v : String}
    (h : t.lookup k = some v) : (k, v) ∈ t := by
  obtain ⟨l₁, l₂, he, -⟩ := List.lookup_eq_some_iff.mp h
  subst he
  simp

theorem dictGet_count_spark (t : Record) (k d : String)
    (hclean : ∀ k v, (k, v) ∈ t → v.data.count '⚡' = 0)
    (hd : d.data.count '⚡' = 0) :
    (dictGet t k d).data.count '⚡' = 0 := by
  unfold dictGet
  cases h : t.lookup k with
  | none => simpa using hd
  | some v => simpa using hclean k v (mem_of_lookup_eq_some h)

theorem dictGet_of_none (t : Record) (k d : String) (h : t.lookup k = none) :
    dictGet t k d = d := by
  unfold dictGet; rw [h]; rfl

theorem dictGet_of_some (t : Record) (k d v : String) (h : t.lookup k = some v) :
    dictGet t k d = v := by
  unfold dictGet; rw [h]; rfl

theorem iocsPart_of_none (t : Record) (h : t.lookup "iocs" = none) :
    iocsPart t = "" := by
  unfold iocsPart; rw [h]

theorem iocsPart_of_empty (t : Record) (h : t.lookup "iocs" = some "") :
    iocsPart t = "" := by
  unfold iocsPart; rw [h]; rfl

theorem iocsPart_of_some (t : Record) (v : String) (h : t.lookup "iocs" = some v)
    (hv : v ≠ "") : iocsPart t = "   ⚡ IOCs: " ++ v ++ "\n" := by
  unfold iocsPart; rw [h]; exact if_neg hv

theorem truthyGet_of_none (t : Record) (k : String) (h : t.lookup k = none) :
    truthyGet t k = false := by
  unfold truthyGet; rw [h]

theorem truthyGet_of_empty (t : Record) (k : String) (h : t.lookup k = some "") :
    truthyGet t k = false := by
  unfold truthyGet; rw [h]; rfl

theorem truthyGet_of_some (t : Record) (k v : String) (h : t.lookup k = some v)
    (hv : v ≠ "") : truthyGet t k = true := by
  unfold truthyGet; rw [h]; exact bne_iff_ne.mpr hv

theorem iocsPart_count_spark (t : Record)
    (hclean : ∀ k v, (k, v) ∈ t → v.data.count '⚡' = 0) :
    (iocsPart t).data.count '⚡' = if truthyGet t "iocs" then 1 else 0 := by
  cases h : t.lookup "iocs" with
  | none => rw [iocsPart_of_none t h, truthyGet_of_none t _ h]; decide
  | some v =>
    by_cases hv : v = ""
    · subst hv
      rw [iocsPart_of_empty t h, truthyGet_of_empty t _ h]; decide
    · rw [iocsPart_of_some t v h hv, truthyGet_of_some t _ v h hv]
      have hvc : v.data.count '⚡' = 0 := hclean "iocs" v (mem_of_lookup_eq_some h)
      simp [List.count_append, hvc]

theorem exceptBindOk {α β ε : Type} (x : α) (f : α → Except ε β) :
    (Except.ok x >>= f) = f x := rfl

instance instDecidableContainsStr (n h : String) : Decidable (containsStr n h) := by
  unfold containsStr
  exact List.decidableInfix n.data h.data

theorem containsStr_intro (n p q h : String) (he : h = p ++ n ++ q) :
    containsStr n h :=
  ⟨p.data, q.data, by subst he; simp⟩

theorem renderThreatsStr_zip (ts : List Record) : ∀ (i : Nat),
    renderThreatsStr i ts =
      concatList (((List.range' i ts.length).zip ts).map fun p => threatBlockStr p.1 p.2) := by
  induction ts with
  | nil => intro i; rfl
  | cons t ts ih =>
    intro i
    simp only [renderThreatsStr, List.length_cons, List.range'_succ,
      List.zip_cons_cons, List.map_cons, concatList, ih]
    rfl

theorem threatBlockStr_count_spark (i : Nat) (t : Record)
    (hclean : ∀ k v, (k, v) ∈ t → v.data.count '⚡' = 0) :
    (threatBlockStr i t).data.count '⚡' = if truthyGet t "iocs" then 1 else 0 := by
  have hname := dictGet_count_spark t "name" "Unknown" hclean (by decide)
  have hsev := dictGet_count_spark t "severity" "N/A" hclean (by decide)
  have htar := dictGet_count_spark t "target" "N/A" hclean (by decide)
  have hvec := dictGet_count_spark t "vector" "N/A" hclean (by decide)
  have hurl := dictGet_count_spark t "url" "N/A" hclean (by decide)
  have hts := toString_count_spark i
  have hio := iocsPart_count_spark t hclean
  have l1 : "\n".data.count '⚡' = 0 := by decide
  have l2 : ". **".data.count '⚡' = 0 := by decide
  have l3 : "** - ".data.count '⚡' = 0 := by decide
  have l4 : "   📌 Target: ".data.count '⚡' = 0 := by decide
  have l5 : "   🎯 Vector: ".data.count '⚡' = 0 := by decide
  have l6 : "   🔗 Source: ".data.count '⚡' = 0 := by decide
  unfold threatBlockStr
  simp only [String.data_append, List.count_append, hname, hsev, htar, hvec, hurl,
    hts, hio, l1, l2, l3, l4, l5, l6]
  omega

/-- Claim C1: for every CveRecord whose description has length L, the rendered
CVE line is the first min(80, L) characters of the description followed
immediately by the literal ellipsis marker, unconditionally (the concrete
conjunct shows the ellipsis is appended even when L < 80), and the line so
built is what the full summary embeds for that record. -/
theorem c1_cve_description_truncation (cve : Record) (d : String)
    (h : cve.lookup "desc" = some d) :
    formatCveLine cve = "- **" ++ dictGet cve "id" "N/A" ++ "**: " ++ pySlice d 80 ++ "... (CVSS: " ++ dictGet cve "cvss" "N/A" ++ ")\n"
    ∧ (pySlice d 80).length = min 80 d.length
    ∧ (∀ (now : String) (ts : List Record) (ds : Option String),
        containsStr (pySlice d 80 ++ "... (CVSS: ") (summaryStr now ts [cve] ds))
    ∧ formatCveLine [("desc", "abc")] = "- **N/A**: abc... (CVSS: N/A)\n" := by
  refine ⟨?_, ?_, ?_, ?_⟩
  · unfold formatCveLine
    rw [dictGet_of_some _ _ _ _ h]
  · show (d.data.take 80).length = min 80 d.length
    rw [List.length_take]
    rfl
  · intro now ts ds
    have hs : summaryStr now ts [cve] ds =
        "🔴 **THREAT INTEL SUMMARY - " ++ dateOf now ds ++ "**\n\n" ++ "🔥 **HOT THREATS**\n" ++
          renderThreatsStr 1 (ts.take 5) ++ ("\n🆕 **NEW CVEs**\n" ++ (formatCveLine cve ++ "")) ++
          "\n💡 *Stay safe, update your systems!* 🛡️" := rfl
    apply containsStr_intro _
      ("🔴 **THREAT INTEL SUMMARY - " ++ dateOf now ds ++ "**\n\n" ++ "🔥 **HOT THREATS**\n" ++ renderThreatsStr 1 (ts.take 5) ++ "\n🆕 **NEW CVEs**\n" ++ "- **" ++ dictGet cve "id" "N/A" ++ "**: ")
      (dictGet cve "cvss" "N/A" ++ ")\n" ++ "\n💡 *Stay safe, update your systems!* 🛡️")
    rw [hs]
    unfold formatCveLine
    rw [dictGet_of_some _ _ _ _ h]
    simp only [String.append_assoc, String.append_empty, String.empty_append]
  · rfl

/-- C1 witness: the theorem applied to the concrete record
`[("desc", "abc")]`, whose description is shorter than 80 characters. -/
theorem c1_cve_description_truncation_witness :
    formatCveLine [("desc", "abc")] = "- **N/A**: abc... (CVSS: N/A)\n"
    ∧ (pySlice "abc" 80).length = min 80 ("abc" : String).length := by
  have h := c1_cve_description_truncation [("desc", "abc")] "abc" rfl
  exact ⟨h.2.2.2, h.2.1⟩

/-- Claim C6: the formatter is total: for every pair of record sequences
(however sparse each record is) and every optional date, it returns a string
and never raises — in particular the raw `threat['iocs']` subscription,
the one operation modelled as fallible, is always guarded. -/
theorem c6_formatter_never_fails (now : String) (ts cs : List Record)
    (ds : Option String) :
    ∃ out, format_threat_summary now ts cs ds = Except.ok out :=
  ⟨_, format_threat_summary_eq now ts cs ds⟩

/-- Claim C8: with no date argument, the header date is the current local
date `now` (as YYYY-MM-DD); and given a fixed non-empty date string the
result is independent of the wall clock (deterministic in the inputs). -/
theorem c8_default_date_determinism (now : String) (ts cs : List Record) :
    format_threat_summary now ts cs none =
      Except.ok ("🔴 **THREAT INTEL SUMMARY - " ++ now ++ "**\n\n" ++ "🔥 **HOT THREATS**\n" ++
        renderThreatsStr 1 (ts.take 5) ++
        (if cs.isEmpty then "" else "\n🆕 **NEW CVEs**\n" ++ renderCves cs) ++
        "\n💡 *Stay safe, update your systems!* 🛡️")
    ∧ (∀ (now₁ now₂ d : String), d ≠ "" →
        format_threat_summary now₁ ts cs (some d) = format_threat_summary now₂ ts cs (some d)) := by
  constructor
  · rw [format_threat_summary_eq]
    rfl
  · intro n₁ n₂ d hd
    rw [format_threat_summary_eq, format_threat_summary_eq]
    unfold summaryStr dateOf
    simp only [if_neg hd]

/-- C8 witness: the clock-independence conjunct at concrete inputs. -/
theorem c8_default_date_determinism_witness :
    format_threat_summary "1999-01-01" [] [] (some "2025-01-01") =
      format_threat_summary "2024-12-31" [] [] (some "2025-01-01") :=
  (c8_default_date_determinism "1999-01-01" [] []).2 "1999-01-01" "2024-12-31"
    "2025-01-01" (by decide)

/-- Claim C9: a provided-but-empty date string is discarded exactly like an
absent one: the current date is substituted instead. -/
theorem c9_empty_date_like_none (now : String) (ts cs : List Record) :
    format_threat_summary now ts cs (some "") = format_threat_summary now ts cs none := by
  rw [format_threat_summary_eq, format_threat_summary_eq]
  rfl

/-- Claim C10: a CveRecord with no `desc` field renders with the default
substituted before truncation, so the line shows the default followed by the
ellipsis marker — the text "N/A..." — as in the concrete conjunct. -/
theorem c10_missing_desc_default (cve : Record) (h : cve.lookup "desc" = none) :
    formatCveLine cve = "- **" ++ dictGet cve "id" "N/A" ++ "**: " ++ "N/A" ++ "... (CVSS: " ++ dictGet cve "cvss" "N/A" ++ ")\n"
    ∧ containsStr "N/A..." (formatCveLine []) := by
  constructor
  · unfold formatCveLine
    rw [dictGet_of_none _ _ _ h, show pySlice "N/A" 80 = "N/A" from rfl]
  · exact containsStr_intro _ "- **N/A**: " " (CVSS: N/A)\n" _ rfl

/-- C10 witness: the theorem applied to a record carrying only an id. -/
theorem c10_missing_desc_default_witness :
    formatCveLine [("id", "CVE-2025-0001")] = "- **CVE-2025-0001**: N/A... (CVSS: N/A)\n" := by
  have h := c10_missing_desc_default [("id", "CVE-2025-0001")] rfl
  rw [h.1]
  rfl

set_option maxRecDepth 40000 in
/-- Claim C2 counterexample: the claim "when the CVE sequence is empty the
NEW CVEs header text does not appear anywhere in the output string" is false
as stated: a threat record whose name itself contains the text makes it
appear even though `cves = []`. -/
theorem c2_counterexample_header_injection :
    containsStr "NEW CVEs" (summaryStr "2025-01-01" [[("name", "NEW CVEs planted")]] [] none)
    ∧ format_threat_summary "2025-01-01" [[("name", "NEW CVEs planted")]] [] none =
        Except.ok (summaryStr "2025-01-01" [[("name", "NEW CVEs planted")]] [] none) := by
  constructor
  · decide
  · exact format_threat_summary_eq "2025-01-01" [[("name", "NEW CVEs planted")]] [] none

set_option maxRecDepth 40000 in
/-- Claim C2 (amended): only the first 5 CveRecords are rendered; when the
sequence is empty the CVE section is omitted entirely — the output is
exactly header, threats section and closing line, with no CVE header
emitted by the formatter (and with no threats the header text appears
nowhere in the output). -/
theorem c2_cve_take_five_and_empty_section_omitted (now : String) (ts cs : List Record)
    (ds : Option String) :
    format_threat_summary now ts cs ds = format_threat_summary now ts (cs.take 5) ds
    ∧ (cs = [] → format_threat_summary now ts cs ds =
        Except.ok ("🔴 **THREAT INTEL SUMMARY - " ++ dateOf now ds ++ "**\n\n" ++ "🔥 **HOT THREATS**\n" ++
          renderThreatsStr 1 (ts.take 5) ++ "\n💡 *Stay safe, update your systems!* 🛡️"))
    ∧ ¬ containsStr "NEW CVEs" (summaryStr "2025-09-30" [] [] none) := by
  refine ⟨?_, ?_, ?_⟩
  · have hA : (cs.take 5).isEmpty = cs.isEmpty := by
      cases cs with
      | nil => rfl
      | cons c cs => rfl
    have hB : renderCves (cs.take 5) = renderCves cs := by
      unfold renderCves
      rw [List.take_take, Nat.min_self]
    rw [format_threat_summary_eq, format_threat_summary_eq]
    unfold summaryStr
    rw [hA, hB]
  · intro hcs
    subst hcs
    rw [format_threat_summary_eq]
    unfold summaryStr
    simp only [String.append_assoc, String.append_empty, String.empty_append]
    rfl
  · decide

/-- C2 witness: the empty-CVE conjunct at concrete inputs. -/
theorem c2_cve_take_five_and_empty_section_omitted_witness :
    format_threat_summary "2025-09-30" [] [] none =
      Except.ok ("🔴 **THREAT INTEL SUMMARY - " ++ dateOf "2025-09-30" none ++ "**\n\n" ++ "🔥 **HOT THREATS**\n" ++
        renderThreatsStr 1 (List.take 5 []) ++ "\n💡 *Stay safe, update your systems!* 🛡️") :=
  (c2_cve_take_five_and_empty_section_omitted "2025-09-30" [] [] none).2.1 rfl

/-- Claim C3: only the first 5 ThreatRecords are rendered, in input order,
numbered consecutively 1, 2, ... up to min(5, length) (the rendered body is
the concatenation of the blocks of the first five, zipped with the counters
1..min 5 len). -/
theorem c3_threats_first_five_numbered (now : String) (ts cs : List Record)
    (ds : Option String) :
    format_threat_summary now ts cs ds = format_threat_summary now (ts.take 5) cs ds
    ∧ renderThreatsStr 1 (ts.take 5) =
        concatList (((List.range' 1 (min 5 ts.length)).zip (ts.take 5)).map
          fun p => threatBlockStr p.1 p.2)
    ∧ (ts.take 5).length = min 5 ts.length := by
  refine ⟨?_, ?_, ?_⟩
  · rw [format_threat_summary_eq, format_threat_summary_eq]
    unfold summaryStr
    rw [List.take_take, Nat.min_self]
  · rw [renderThreatsStr_zip, List.length_take]
  · rw [List.length_take]

set_option maxRecDepth 40000 in
/-- Claim C4 counterexample: the claim "when `iocs` is absent or empty no
line containing the IOCs marker appears for that threat" is false as
stated: a record with no `iocs` field whose `target` value itself contains
the marker text still yields a line containing the marker, in the block and
in the full summary. -/
theorem c4_counterexample_marker_injection :
    List.lookup "iocs" [("target", "injected ⚡ IOCs: 10.0.0.1")] = none
    ∧ containsStr "⚡ IOCs: " (threatBlockStr 1 [("target", "injected ⚡ IOCs: 10.0.0.1")])
    ∧ containsStr "⚡ IOCs: " (summaryStr "2025-01-01" [[("target", "injected ⚡ IOCs: 10.0.0.1")]] [] none)
    ∧ format_threat_summary "2025-01-01" [[("target", "injected ⚡ IOCs: 10.0.0.1")]] [] none =
        Except.ok (summaryStr "2025-01-01" [[("target", "injected ⚡ IOCs: 10.0.0.1")]] [] none) := by
  refine ⟨rfl, by decide, by decide, ?_⟩
  exact format_threat_summary_eq "2025-01-01" [[("target", "injected ⚡ IOCs: 10.0.0.1")]] [] none

/-- Claim C4 (amended): the formatter itself emits an IOCs line for a
rendered threat iff its `iocs` field is present and non-empty:
when present and non-empty the conditional segment is exactly the IOCs line
with that value and the block contains it; when absent or empty the
conditional segment is empty and the block is exactly the four other lines.
The marker appears exactly once (respectively not at all) in the block only
for records whose own field values do not contain the marker character,
since any field value is echoed verbatim and can inject the marker text. -/
theorem c4_iocs_emission_amended (i : Nat) (t : Record) :
    (∀ v, t.lookup "iocs" = some v → v ≠ "" →
        iocsPart t = "   ⚡ IOCs: " ++ v ++ "\n"
        ∧ containsStr ("   ⚡ IOCs: " ++ v ++ "\n") (threatBlockStr i t))
    ∧ (truthyGet t "iocs" = false → iocsPart t = ""
        ∧ threatBlockStr i t =
          "\n" ++ toString i ++ ". **" ++ dictGet t "name" "Unknown" ++ "** - " ++ dictGet t "severity" "N/A" ++ "\n" ++
          "   📌 Target: " ++ dictGet t "target" "N/A" ++ "\n" ++
          "   🎯 Vector: " ++ dictGet t "vector" "N/A" ++ "\n" ++
          "   🔗 Source: " ++ dictGet t "url" "N/A" ++ "\n")
    ∧ ((∀ k v, (k, v) ∈ t → v.data.count '⚡' = 0) →
        (threatBlockStr i t).data.count '⚡' = if truthyGet t "iocs" then 1 else 0) := by
  refine ⟨?_, ?_, threatBlockStr_count_spark i t⟩
  · intro v hv hvne
    refine ⟨iocsPart_of_some t v hv hvne, ?_⟩
    apply containsStr_intro _
      ("\n" ++ toString i ++ ". **" ++ dictGet t "name" "Unknown" ++ "** - " ++ dictGet t "severity" "N/A" ++ "\n" ++
        "   📌 Target: " ++ dictGet t "target" "N/A" ++ "\n" ++
        "   🎯 Vector: " ++ dictGet t "vector" "N/A" ++ "\n")
      ("   🔗 Source: " ++ dictGet t "url" "N/A" ++ "\n")
    unfold threatBlockStr
    rw [iocsPart_of_some t v hv hvne]
    simp only [String.append_assoc]
  · intro hf
    have hio : iocsPart t = "" := by
      cases h : t.lookup "iocs" with
      | none => exact iocsPart_of_none t h
      | some v =>
        by_cases hv : v = ""
        · subst hv
          exact iocsPart_of_empty t h
        · rw [truthyGet_of_some t _ v h hv] at hf
          cases hf
    refine ⟨hio, ?_⟩
    unfold threatBlockStr
    rw [hio]
    simp only [String.append_assoc, String.append_empty, String.empty_append]

/-- C4 witness: a record with a non-empty `iocs` field has the IOCs line as
its conditional segment, contains it, and (its values being marker-free)
carries exactly one marker; the empty record has an empty segment and no
marker. -/
theorem c4_iocs_emission_amended_witness :
    iocsPart [("iocs", "1.2.3.4")] = "   ⚡ IOCs: " ++ "1.2.3.4" ++ "\n"
    ∧ containsStr ("   ⚡ IOCs: " ++ "1.2.3.4" ++ "\n") (threatBlockStr 1 [("iocs", "1.2.3.4")])
    ∧ ((threatBlockStr 1 [("iocs", "1.2.3.4")]).data.count '⚡' = 1)
    ∧ iocsPart [] = ""
    ∧ (threatBlockStr 2 []).data.count '⚡' = 0 := by
  have h1 := c4_iocs_emission_amended 1 [("iocs", "1.2.3.4")]
  have h2 := c4_iocs_emission_amended 2 []
  have hv := h1.1 "1.2.3.4" rfl (by decide)
  have hc := h1.2.2 (by
    intro k v hm
    simp only [List.mem_singleton, Prod.mk.injEq] at hm
    obtain ⟨rfl, rfl⟩ := hm
    decide)
  refine ⟨hv.1, hv.2, by rw [hc]; rfl, (h2.2.1 rfl).1, ?_⟩
  rw [h2.2.2 (by intro k v hm; simp at hm)]
  rfl

/-- Claim C5: a missing `name` renders as "Unknown" and missing `severity`,
`target`, `vector` or `url` render as "N/A" — each missing field produces
the same block as the record with the default explicitly filled in — and
the concrete scenario with only a name gives the threat line
"1. **X** - N/A", "N/A" target/vector/source lines and no IOCs line. -/
theorem c5_missing_field_defaults (i : Nat) (t : Record) :
    (t.lookup "name" = none → threatBlockStr i t = threatBlockStr i (("name", "Unknown") :: t))
    ∧ (t.lookup "severity" = none → threatBlockStr i t = threatBlockStr i (("severity", "N/A") :: t))
    ∧ (t.lookup "target" = none → threatBlockStr i t = threatBlockStr i (("target", "N/A") :: t))
    ∧ (t.lookup "vector" = none → threatBlockStr i t = threatBlockStr i (("vector", "N/A") :: t))
    ∧ (t.lookup "url" = none → threatBlockStr i t = threatBlockStr i (("url", "N/A") :: t))
    ∧ format_threat_summary "2025-09-30" [[("name", "X")]] [] (some "2025-01-01") =
        Except.ok "🔴 **THREAT INTEL SUMMARY - 2025-01-01**\n\n🔥 **HOT THREATS**\n\n1. **X** - N/A\n   📌 Target: N/A\n   🎯 Vector: N/A\n   🔗 Source: N/A\n\n💡 *Stay safe, update your systems!* 🛡️" := by
  refine ⟨?_, ?_, ?_, ?_, ?_, ?_⟩
  · intro h
    unfold threatBlockStr
    rw [dictGet_of_none _ _ _ h]
    rfl
  · intro h
    unfold threatBlockStr
    rw [dictGet_of_none _ _ _ h]
    rfl
  · intro h
    unfold threatBlockStr
    rw [dictGet_of_none _ _ _ h]
    rfl
  · intro h
    unfold threatBlockStr
    rw [dictGet_of_none _ _ _ h]
    rfl
  · intro h
    unfold threatBlockStr
    rw [dictGet_of_none _ _ _ h]
    rfl
  · rw [format_threat_summary_eq]
    rfl

/-- C5 witness: the name conjunct applied to the empty record. -/
theorem c5_missing_field_defaults_witness :
    threatBlockStr 1 [] = threatBlockStr 1 [("name", "Unknown")] :=
  (c5_missing_field_defaults 1 []).1 rfl

theorem containsStr_append_left (n x s : String) (h : containsStr n s) :
    containsStr n (x ++ s) := by
  obtain ⟨p, q, hpq⟩ := h
  refine ⟨x.data ++ p, q, ?_⟩
  rw [String.data_append, ← hpq]
  simp [List.append_assoc]

set_option maxRecDepth 100000 in
/-- Claim C7: with "--sample" as first argument the entry point prints the
formatted summary of the two hardcoded sample records — containing
"Example Malware", "CVE-2025-1234" and the closing safety line — and exits
with status 0; with no argument or any other first argument it prints
exactly the two literal usage lines, performs no formatting, and also exits
with status 0. -/
theorem c7_entry_point (now prog : String) (rest : List String) :
    (main_run now (prog :: "--sample" :: rest) =
        Except.ok (summaryStr now sample_threats sample_cves none ++ "\n", 0))
    ∧ containsStr "Example Malware" (summaryStr now sample_threats sample_cves none)
    ∧ containsStr "CVE-2025-1234" (summaryStr now sample_threats sample_cves none)
    ∧ containsStr "💡 *Stay safe, update your systems!* 🛡️" (summaryStr now sample_threats sample_cves none)
    ∧ (∀ argv : List String, (∀ a, argv.get? 1 = some a → a ≠ "--sample") →
        main_run now argv = Except.ok (usageText, 0)) := by
  have hs : summaryStr now sample_threats sample_cves none =
      "🔴 **THREAT INTEL SUMMARY - " ++ (now ++ "**\n\n🔥 **HOT THREATS**\n\n1. **Example Malware** - High\n   📌 Target: Financial Sector\n   🎯 Vector: Phishing\n   ⚡ IOCs: example.com, 192.168.1.1\n   🔗 Source: https://example.com/threat\n\n🆕 **NEW CVEs**\n- **CVE-2025-1234**: Remote code execution vulnerability in example software... (CVSS: 9.8)\n\n💡 *Stay safe, update your systems!* 🛡️") := by
    unfold summaryStr dateOf
    simp only [String.append_assoc]
    congr 1
  refine ⟨?_, ?_, ?_, ?_, ?_⟩
  · unfold main_run
    rw [if_pos (by simp : (prog :: "--sample" :: rest).length > 1)]
    simp only [List.get?, exceptBindOk, if_pos rfl]
    rw [format_threat_summary_eq]
    rfl
  · rw [hs]
    apply containsStr_append_left
    apply containsStr_append_left
    decide
  · rw [hs]
    apply containsStr_append_left
    apply containsStr_append_left
    decide
  · rw [hs]
    apply containsStr_append_left
    apply containsStr_append_left
    decide
  · intro argv H
    rcases argv with _ | ⟨p, _ | ⟨b, tl⟩⟩
    · rfl
    · rfl
    · have hb : b ≠ "--sample" := H b rfl
      unfold main_run
      rw [if_pos (by simp : (p :: b :: tl).length > 1)]
      simp only [List.get?, exceptBindOk, if_neg hb]
      rfl

/-- C7 witness: both branches at concrete arguments. -/
theorem c7_entry_point_witness :
    main_run "2025-09-30" ["fetch_threat_intel.py", "--sample"] =
      Except.ok (summaryStr "2025-09-30" sample_threats sample_cves none ++ "\n", 0)
    ∧ main_run "2025-09-30" ["fetch_threat_intel.py"] = Except.ok (usageText, 0) := by
  have h := c7_entry_point "2025-09-30" "fetch_threat_intel.py" []
  exact ⟨h.1, h.2.2.2.2 ["fetch_threat_intel.py"] (fun a ha => by cases ha)⟩
